import Mathlib

/-!
Verification of the chess-assistant model pipeline scripts.

The repository consists of three Python scripts:
- `download_and_convert.py` (embedded in namespace `DAC`): downloads
  `best_mobile.onnx` from HuggingFace, converts ONNX → TensorFlow →
  SavedModel → TFLite, and copies the result into `app/src/main/assets`.
- `convert_model.py` (embedded in namespace `CM`): checks dependencies,
  loads a YOLO model from a registry identifier (with a base-model
  fallback), exports ONNX and TFLite, and writes a `labels.txt` manifest.
- `download_model.py` (embedded in namespace `DM`): downloads a
  pre-converted TFLite model from GitHub and copies it into
  `app/src/main/assets`.

The filesystem is modelled as an association list from paths to byte
contents (newest write first) together with a list of created
directories.  External effects (network fetches, model-loader calls,
conversion-library calls) are parameters of an `Env` structure, and each
run returns a trace of the external events it performed, so that
ordering and absence-of-fetch properties can be stated.
-/

abbrev FPath := String

/-- File contents as a list of byte values. -/
abbrev Bytes := List Nat

/-- Externally observable actions performed by a run. -/
inductive Event where
  /-- `urllib.request.urlretrieve url ...` — a network download. -/
  | net (url : String)
  /-- `YOLO(ident)` — a registry / model-loader call. -/
  | load (ident : String)
  /-- `model.export(format=fmt, imgsz=i, int8=q)` — an export stage. -/
  | exportCall (fmt : String) (imgsz : Nat) (int8 : Bool)
  deriving DecidableEq

/-- A filesystem: files as an association list (newest entry first, as
produced by repeated writes) and the set of directories created. -/
structure FS where
  files : List (FPath × Bytes)
  dirs : List FPath
  deriving DecidableEq

/-- `os.path.exists` / reading a file: the newest write at that path. -/
def FS.lookup (fs : FS) (p : FPath) : Option Bytes :=
  match fs.files.find? (fun e => e.1 = p) with
  | some e => some e.2
  | none => none

/-- `os.path.exists p` for a file path. -/
def FS.pathExists (fs : FS) (p : FPath) : Bool :=
  (fs.lookup p).isSome

/-- `os.path.getsize p` (None when the file is missing). -/
def FS.getsize (fs : FS) (p : FPath) : Option Nat :=
  (fs.lookup p).map List.length

/-- Writing a file (`open(p, "wb").write b`, or the target of a copy):
the new entry shadows any older one at the same path. -/
def FS.writeFile (fs : FS) (p : FPath) (b : Bytes) : FS :=
  ⟨(p, b) :: fs.files, fs.dirs⟩

/-- `os.makedirs(d, exist_ok=True)`: records `d` and its parents. -/
def FS.makedirs (fs : FS) (ds : List FPath) : FS :=
  ⟨fs.files, ds ++ fs.dirs⟩

/-- `as` is a leading segment of `bs` (character-list comparison). -/
def leadsWith : List Char → List Char → Bool
  | [], _ => true
  | _ :: _, [] => false
  | a :: as, b :: bs => a = b && leadsWith as bs

/-- FPath `p` lies under directory `d`. -/
def isUnder (d p : FPath) : Bool :=
  leadsWith (d.data ++ ['/']) p.data

/-- The distinct file names currently under directory `d`. -/
def FS.namesUnder (fs : FS) (d : FPath) : List FPath :=
  ((fs.files.map Prod.fst).filter (isUnder d)).dedup

/-- The Android assets directory targeted by the staging steps. -/
def assets_dir : FPath := "app/src/main/assets"

/-- The directories `os.makedirs("app/src/main/assets", exist_ok=True)`
creates (the directory and its parents). -/
def assetsParents : List FPath :=
  ["app", "app/src", "app/src/main", "app/src/main/assets"]

/-- The fixed staging destination `os.path.join(assets_dir, "chess_yolo.tflite")`. -/
def dest_file : FPath := "app/src/main/assets/chess_yolo.tflite"

/-- The project-root marker file checked by `download_and_convert.main`. -/
def gradle_marker : FPath := "app/build.gradle.kts"

namespace DAC

/-- The HuggingFace URL hardcoded in `download_and_convert.download_model`. -/
def hf_url : String :=
  "https://huggingface.co/yamero999/chess-piece-detection-yolo11n/resolve/main/best_mobile.onnx"

/-- TFLite converter optimization settings (`tf.lite.Optimize`). -/
inductive Optimize where
  | DEFAULT
  deriving DecidableEq

/-- TFLite converter operator sets (`tf.lite.OpsSet`). -/
inductive OpsSet where
  | TFLITE_BUILTINS
  | SELECT_TF_OPS
  deriving DecidableEq

/-- The configuration fields set on a `tf.lite.TFLiteConverter`. -/
structure ConverterConfig where
  optimizations : List Optimize
  supported_ops : List OpsSet
  deriving DecidableEq

/-- The converter configuration hardcoded in
`download_and_convert.convert_to_tflite` (lines 68–73):
`converter.optimizations = [tf.lite.Optimize.DEFAULT]` and
`converter.target_spec.supported_ops = [TFLITE_BUILTINS, SELECT_TF_OPS]`. -/
def dac_converter_config : ConverterConfig :=
  ⟨[Optimize.DEFAULT], [OpsSet.TFLITE_BUILTINS, OpsSet.SELECT_TF_OPS]⟩

/-- `tf.lite.Optimize.DEFAULT` enables TensorFlow Lite's standard
post-training optimization, which quantizes weights (dynamic-range
quantization); a full-precision export leaves `optimizations` empty. -/
def quantizationConfigured (c : ConverterConfig) : Bool :=
  !c.optimizations.isEmpty

/-- External collaborators of `download_and_convert.py`. -/
structure Env where
  /-- `urllib.request.urlretrieve`: the bytes fetched, none on exception. -/
  net : String → Option Bytes
  /-- Whether `import onnx` / `onnx_tf` / `tensorflow` succeed. -/
  deps : Bool
  /-- `onnx.load` on the file's bytes; none on exception. -/
  loadOnnx : Bytes → Option Bytes
  /-- `onnx_tf.backend.prepare`; none on exception. -/
  prepareTF : Bytes → Option Bytes
  /-- `tf_rep.export_graph`: the SavedModel bytes written. -/
  savedModelBytes : Bytes → Bytes
  /-- `converter.convert()` on the SavedModel under the given
  configuration; none on exception. -/
  convertTFLite : ConverterConfig → Bytes → Option Bytes
  /-- Whether `shutil.copy` fails with a filesystem error. -/
  copyFail : Bool

/-- `download_and_convert.download_model` (lines 15–42): skip the
download when `best_mobile.onnx` already exists, otherwise fetch it;
return the filename, or None on failure. -/
def download_model (env : Env) (fs : FS) : FS × List Event × Option FPath :=
  if fs.pathExists "best_mobile.onnx" then
    (fs, [], some "best_mobile.onnx")
  else
    match env.net hf_url with
    | some b => (fs.writeFile "best_mobile.onnx" b, [Event.net hf_url], some "best_mobile.onnx")
    | none => (fs, [Event.net hf_url], none)

/-- `download_and_convert.convert_to_tflite` (lines 44–94): load the
ONNX file, convert to TensorFlow, export a SavedModel, then run the
TFLite converter with `dac_converter_config`; any ImportError or
exception yields None. -/
def convert_to_tflite (env : Env) (fs : FS) (onnx_file : FPath) : FS × List Event × Option FPath :=
  if !env.deps then (fs, [], none)
  else
    match fs.lookup onnx_file with
    | none => (fs, [], none)
    | some ob =>
      match env.loadOnnx ob with
      | none => (fs, [], none)
      | some om =>
        match env.prepareTF om with
        | none => (fs, [], none)
        | some rep =>
          let fs1 := fs.writeFile "yolo_savedmodel" (env.savedModelBytes rep)
          match env.convertTFLite dac_converter_config (env.savedModelBytes rep) with
          | none => (fs1, [], none)
          | some t => (fs1.writeFile "chess_yolo.tflite" t, [], some "chess_yolo.tflite")

/-- `download_and_convert.copy_to_assets` (lines 96–119): create the
assets directory (with parents), then `shutil.copy` the file to the
fixed destination name; False on any exception (missing source, copy
onto itself — `SameFileError` — or a filesystem error). -/
def copy_to_assets (env : Env) (fs : FS) (tflite_file : FPath) : FS × Bool :=
  let fs1 := fs.makedirs assetsParents
  if env.copyFail then (fs1, false)
  else if tflite_file = dest_file then (fs1, false)
  else
    match fs1.lookup tflite_file with
    | some b => (fs1.writeFile dest_file b, true)
    | none => (fs1, false)

/-- `download_and_convert.main` (lines 121–155): gate on the gradle
marker file, then download → convert → copy, exiting 1 at the first
failed step and 0 on success. -/
def main (env : Env) (fs : FS) : FS × List Event × Nat :=
  if !fs.pathExists gradle_marker then (fs, [], 1)
  else
    match download_model env fs with
    | (fs1, ev1, none) => (fs1, ev1, 1)
    | (fs1, ev1, some onnx_file) =>
      match convert_to_tflite env fs1 onnx_file with
      | (fs2, ev2, none) => (fs2, ev1 ++ ev2, 1)
      | (fs2, ev2, some tflite_file) =>
        match copy_to_assets env fs2 tflite_file with
        | (fs3, true) => (fs3, ev1 ++ ev2, 0)
        | (fs3, false) => (fs3, ev1 ++ ev2, 1)

end DAC

namespace CM

/-- An acquired model object (`YOLO(...)`), abstract handle. -/
abbrev Model := Nat

/-- The registry identifier hardcoded in `convert_model.py` (line 40). -/
def model_name : String := "yamero999/chess-piece-detection-yolo11n"

/-- The fallback base-model identifier (`convert_model.py` line 49). -/
def fallback_name : String := "yolo11n.pt"

/-- The packages `convert_model.check_dependencies` requires (line 11). -/
def required : List String := ["ultralytics", "torch", "onnx", "tensorflow"]

/-- The fixed class-label list written by `convert_model.py`
(lines 78–91): six piece types, white pieces then black pieces. -/
def labels : List String :=
  ["white_pawn", "white_knight", "white_bishop", "white_rook",
   "white_queen", "white_king",
   "black_pawn", "black_knight", "black_bishop", "black_rook",
   "black_queen", "black_king"]

/-- ASCII/UTF-8 bytes of a string (all labels are ASCII). -/
def strBytes (s : String) : Bytes := s.data.map Char.toNat

/-- Python's `'\n'.join`: the strings joined with a newline between
consecutive elements, no trailing newline. -/
def pyJoinNl : List String → String
  | [] => ""
  | [s] => s
  | s :: rest => s ++ "\n" ++ pyJoinNl rest

/-- The bytes written to `labels.txt`: `'\n'.join(labels)` (line 95). -/
def labelsBytes : Bytes := strBytes (pyJoinNl labels)

/-- Split a byte string on the newline byte 10. -/
def splitNl : Bytes → List Bytes
  | [] => [[]]
  | c :: rest =>
    let r := splitNl rest
    if c = 10 then [] :: r
    else
      match r with
      | [] => [[c]]
      | l :: ls => (c :: l) :: ls

/-- External collaborators of `convert_model.py`. -/
structure Env where
  /-- Whether `__import__(pkg)` succeeds. -/
  importable : String → Bool
  /-- `YOLO(ident)`: the loaded model, none on exception. -/
  loadYOLO : String → Option Model
  /-- `model.export(format=fmt, imgsz=i, int8=q)`: the path written and
  its bytes, none on exception. -/
  exportModel : Model → String → Nat → Bool → Option (FPath × Bytes)

/-- `convert_model.check_dependencies` (lines 9–27): collect the
packages that fail to import; all-present iff none are missing. -/
def check_dependencies (env : Env) : Bool :=
  (required.filter (fun p => !env.importable p)).isEmpty

/-- The acquisition step of `convert_model.download_and_convert_model`
(lines 43–50): try `YOLO(model_name)`; on exception, try
`YOLO("yolo11n.pt")` once.  Returns the loader calls performed and the
model (none when the fallback also raises). -/
def acquireTrace (env : Env) : List Event × Option Model :=
  match env.loadYOLO model_name with
  | some m => ([Event.load model_name], some m)
  | none =>
    match env.loadYOLO fallback_name with
    | some m => ([Event.load model_name, Event.load fallback_name], some m)
    | none => ([Event.load model_name, Event.load fallback_name], none)

/-- The model produced by the acquisition step. -/
def acquiredModel (env : Env) : Option Model := (acquireTrace env).2

/-- `convert_model.download_and_convert_model` (lines 29–114): acquire
the model, export ONNX (`imgsz=640`), export TFLite (`imgsz=640,
int8=False`), write `labels.txt`; any uncaught exception yields False. -/
def download_and_convert_model (env : Env) (fs : FS) : FS × List Event × Bool :=
  match acquireTrace env with
  | (tr, none) => (fs, tr, false)
  | (tr, some model) =>
    match env.exportModel model "onnx" 640 false with
    | none => (fs, tr ++ [Event.exportCall "onnx" 640 false], false)
    | some (onnx_path, ob) =>
      let fs1 := fs.writeFile onnx_path ob
      match env.exportModel model "tflite" 640 false with
      | none =>
        (fs1, tr ++ [Event.exportCall "onnx" 640 false,
                     Event.exportCall "tflite" 640 false], false)
      | some (tflite_path, tb) =>
        let fs2 := fs1.writeFile tflite_path tb
        let fs3 := fs2.writeFile "labels.txt" labelsBytes
        (fs3, tr ++ [Event.exportCall "onnx" 640 false,
                     Event.exportCall "tflite" 640 false], true)

/-- Variant of `download_and_convert_model` with the ONNX export step
(lines 56–58) removed, for comparison: the TFLite export is invoked on
the same acquired model object and never reads the ONNX artifact. -/
def download_and_convert_model_noOnnx (env : Env) (fs : FS) : FS × List Event × Bool :=
  match acquireTrace env with
  | (tr, none) => (fs, tr, false)
  | (tr, some model) =>
    match env.exportModel model "tflite" 640 false with
    | none => (fs, tr ++ [Event.exportCall "tflite" 640 false], false)
    | some (tflite_path, tb) =>
      let fs2 := fs.writeFile tflite_path tb
      let fs3 := fs2.writeFile "labels.txt" labelsBytes
      (fs3, tr ++ [Event.exportCall "tflite" 640 false], true)

/-- The `__main__` block of `convert_model.py` (lines 116–125): gate on
`check_dependencies`, then run the conversion; exit 0 iff it succeeds. -/
def mainEntry (env : Env) (fs : FS) : FS × List Event × Nat :=
  if !check_dependencies env then (fs, [], 1)
  else
    match download_and_convert_model env fs with
    | (fs1, tr, ok) => (fs1, tr, if ok then 0 else 1)

end CM

namespace DM

/-- The GitHub URL hardcoded in `download_model.download_tflite_model`. -/
def gh_url : String :=
  "https://github.com/Hann-THL/chess_piece_object_detection/raw/main/model.tflite"

/-- External collaborators of `download_model.py`. -/
structure Env where
  /-- `urllib.request.urlretrieve`: the bytes fetched, none on exception. -/
  net : String → Option Bytes
  /-- Whether `shutil.copy` fails with a filesystem error. -/
  copyFail : Bool

/-- `download_model.download_tflite_model` (lines 9–41): fetch the model
unconditionally (no existence check) to `chess_yolo.tflite`, overwriting
any prior file; None on failure. -/
def download_tflite_model (env : Env) (fs : FS) : FS × List Event × Option FPath :=
  match env.net gh_url with
  | some b =>
    (fs.writeFile "chess_yolo.tflite" b, [Event.net gh_url], some "chess_yolo.tflite")
  | none => (fs, [Event.net gh_url], none)

/-- `download_model.copy_to_assets` (lines 43–65): create the assets
directory, copy the model to the fixed destination name; False on any
exception. -/
def copy_to_assets (env : Env) (fs : FS) (model_file : FPath) : FS × Bool :=
  let fs1 := fs.makedirs assetsParents
  if env.copyFail then (fs1, false)
  else if model_file = dest_file then (fs1, false)
  else
    match fs1.lookup model_file with
    | some b => (fs1.writeFile dest_file b, true)
    | none => (fs1, false)

/-- `download_model.main` plus its `__main__` block (lines 67–95):
download, copy to assets, exit 0 on success and 1 on failure. -/
def mainEntry (env : Env) (fs : FS) : FS × List Event × Nat :=
  match download_tflite_model env fs with
  | (fs1, ev1, none) => (fs1, ev1, 1)
  | (fs1, ev1, some model_file) =>
    match copy_to_assets env fs1 model_file with
    | (fs2, true) => (fs2, ev1, 0)
    | (fs2, false) => (fs2, ev1, 1)

end DM

/-! Concrete inputs used to exercise the runs. -/

/-- The empty filesystem. -/
def fs0 : FS := ⟨[], []⟩

/-- A project tree containing only the gradle marker file. -/
def fsMarker : FS := ⟨[(gradle_marker, [0])], []⟩

/-- A filesystem already holding a `best_mobile.onnx` artifact. -/
def fsOnnx : FS := ⟨[("best_mobile.onnx", [9])], []⟩

/-- A filesystem already holding a `chess_yolo.tflite` artifact. -/
def fsExisting : FS := ⟨[("chess_yolo.tflite", [1])], []⟩

/-- A filesystem holding a two-byte converted artifact to stage. -/
def fsCopySrc : FS := ⟨[("chess_yolo.tflite", [5, 6])], []⟩

/-- A fully successful environment for `download_and_convert.py`. -/
def dacEnvOk : DAC.Env :=
  ⟨fun _ => some [1, 2], true, fun b => some b, fun b => some b,
   fun b => b, fun _ b => some (3 :: b), false⟩

/-- Like `dacEnvOk` but with the conversion toolchain missing. -/
def dacEnvNoDeps : DAC.Env :=
  ⟨fun _ => some [1, 2], false, fun b => some b, fun b => some b,
   fun b => b, fun _ b => some (3 :: b), false⟩

/-- An environment whose TFLite conversion succeeds only when an
optimization (quantization) is configured on the converter. -/
def dacEnvQuantObs : DAC.Env :=
  ⟨fun _ => some [1, 2], true, fun b => some b, fun b => some b,
   fun b => b,
   fun cfg b => if DAC.quantizationConfigured cfg then some b else none,
   false⟩

/-- A `download_model.py` environment serving a zero-byte file. -/
def dmEnvZero : DM.Env := ⟨fun _ => some [], false⟩

/-- A `download_model.py` environment serving the byte `[2]`. -/
def dmEnvTwo : DM.Env := ⟨fun _ => some [2], false⟩

/-- A fully successful environment for `convert_model.py`. -/
def cmEnvOk : CM.Env :=
  ⟨fun _ => true, fun _ => some 0,
   fun _ fmt _ _ =>
     some (if fmt = "onnx" then "best.onnx" else "best_saved_model/best_float32.tflite", [5])⟩

/-- A `convert_model.py` environment where every loader call raises. -/
def cmEnvNoLoad : CM.Env :=
  ⟨fun _ => true, fun _ => none, fun _ _ _ _ => none⟩

/-- A `convert_model.py` environment where the `onnx` package is
missing. -/
def cmEnvNoDeps : CM.Env :=
  ⟨fun p => p != "onnx", fun _ => some 0, fun _ _ _ _ => none⟩

/-- `true` exactly on registry / model-loader events. -/
def isLoadEvent : Event → Bool
  | Event.load _ => true
  | _ => false

/-! Basic facts about the filesystem model, shared by the claim
theorems. -/

theorem FS.lookup_writeFile_self (fs : FS) (p : FPath) (b : Bytes) :
    (fs.writeFile p b).lookup p = some b := by
  simp [FS.writeFile, FS.lookup]

theorem FS.lookup_writeFile_ne (fs : FS) (p q : FPath) (b : Bytes)
    (h : q ≠ p) : (fs.writeFile p b).lookup q = fs.lookup q := by
  simp [FS.writeFile, FS.lookup, List.find?, Ne.symm h]

theorem FS.lookup_makedirs (fs : FS) (ds : List FPath) (p : FPath) :
    (fs.makedirs ds).lookup p = fs.lookup p := by
  simp [FS.makedirs, FS.lookup]

theorem FS.pathExists_writeFile (fs : FS) (p : FPath) (b : Bytes) :
    (fs.writeFile p b).pathExists p = true := by
  simp [FS.pathExists, FS.lookup_writeFile_self]

/-! The claims. -/

/-- C9: in `download_and_convert.py`, when the marker file
`app/build.gradle.kts` does not exist in the current working directory,
`main` exits with status 1 with no network download, no conversion and
no write at all (in particular none to the deployment directory). -/
theorem dac_marker_gate (env : DAC.Env) (fs : FS)
    (h : fs.pathExists gradle_marker = false) :
    DAC.main env fs = (fs, [], 1) := by
  simp [DAC.main, h]

/-- Witness for `dac_marker_gate`: the empty filesystem has no marker
file, and `main` leaves it untouched and exits 1. -/
theorem dac_marker_gate_witness : DAC.main dacEnvOk fs0 = (fs0, [], 1) :=
  dac_marker_gate dacEnvOk fs0 (by decide)

/-- C5: the label-manifest bytes written by `convert_model.py` split on
the newline byte into exactly the 12 canonical class names (white
pieces then black pieces), all non-empty; and every successful run
writes exactly these bytes to `labels.txt`, whatever the environment
(model, loader, exports) did. -/
theorem cm_labels_manifest :
    CM.splitNl CM.labelsBytes = CM.labels.map CM.strBytes ∧
    (CM.labels.map CM.strBytes).length = 12 ∧
    (∀ l ∈ CM.labels.map CM.strBytes, l ≠ []) ∧
    (∀ (env : CM.Env) (fs : FS),
      (CM.download_and_convert_model env fs).2.2 = true →
      ((CM.download_and_convert_model env fs).1).lookup "labels.txt"
        = some CM.labelsBytes) := by
  refine ⟨by decide, by decide, by decide, ?_⟩
  intro env fs h
  rcases hA : CM.acquireTrace env with ⟨tr, om⟩
  simp only [CM.download_and_convert_model, hA] at h ⊢
  rcases om with _ | m
  · simp at h
  · rcases hO : env.exportModel m "onnx" 640 false with _ | ⟨op, ob⟩
    · simp [hO] at h
    · simp only [hO] at h ⊢
      rcases hT : env.exportModel m "tflite" 640 false with _ | ⟨tp, tb⟩
      · simp [hT] at h
      · simp [hT, FS.lookup_writeFile_self]

/-- Witness for `cm_labels_manifest`: a successful concrete run leaves
the canonical manifest bytes at `labels.txt`. -/
theorem cm_labels_manifest_witness :
    (CM.download_and_convert_model cmEnvOk fs0).2.2 = true ∧
    ((CM.download_and_convert_model cmEnvOk fs0).1).lookup "labels.txt"
      = some CM.labelsBytes :=
  ⟨by decide, cm_labels_manifest.2.2.2 cmEnvOk fs0 (by decide)⟩

/-- C4: in `convert_model.py`, when the primary registry-identifier
strategy raises, the loader calls performed are exactly the primary
identifier followed by the fallback identifier — the fallback is tried
exactly once, in declared order — and when the fallback also raises the
run reports total failure. -/
theorem cm_fallback_order (env : CM.Env) (fs : FS)
    (h : env.loadYOLO CM.model_name = none) :
    ((CM.download_and_convert_model env fs).2.1).filter isLoadEvent
      = [Event.load CM.model_name, Event.load CM.fallback_name] ∧
    (env.loadYOLO CM.fallback_name = none →
      (CM.download_and_convert_model env fs).2.2 = false) := by
  unfold CM.download_and_convert_model CM.acquireTrace
  rw [h]
  rcases hF : env.loadYOLO CM.fallback_name with _ | m
  · simp [isLoadEvent]
  · refine ⟨?_, by intro hc; cases (Option.some_ne_none m (hF ▸ hc))⟩
    rcases hO : env.exportModel m "onnx" 640 false with _ | ⟨op, ob⟩
    · simp [hO, isLoadEvent]
    · rcases hT : env.exportModel m "tflite" 640 false with _ | ⟨tp, tb⟩
      · simp [hO, hT, isLoadEvent]
      · simp [hO, hT, isLoadEvent]

/-- Witness for `cm_fallback_order`: with both loader calls raising, the
attempts are primary then fallback and the run fails. -/
theorem cm_fallback_order_witness :
    ((CM.download_and_convert_model cmEnvNoLoad fs0).2.1).filter isLoadEvent
      = [Event.load CM.model_name, Event.load CM.fallback_name] ∧
    (CM.download_and_convert_model cmEnvNoLoad fs0).2.2 = false :=
  ⟨(cm_fallback_order cmEnvNoLoad fs0 rfl).1,
   (cm_fallback_order cmEnvNoLoad fs0 rfl).2 rfl⟩

/-- C3 counterexample: `download_model.py`'s acquisition step has no
existence check.  With `chess_yolo.tflite` already present holding
bytes `[1]`, a run still performs the network fetch and overwrites the
file with the fetched bytes `[2]` — the fetch is not skipped and the
file is not byte-identical afterwards. -/
theorem dm_redownload_overwrites :
    fsExisting.lookup "chess_yolo.tflite" = some [1] ∧
    (DM.download_tflite_model dmEnvTwo fsExisting).2.1 = [Event.net DM.gh_url] ∧
    ((DM.download_tflite_model dmEnvTwo fsExisting).1).lookup "chess_yolo.tflite"
      = some [2] := by
  decide

/-- C3 (amended): in `download_and_convert.py`'s acquisition step, a
file already present at the destination path skips the fetch entirely
(the filesystem and the file's bytes are unchanged, no network event)
and the existing file is returned; and any run that returns an artifact
makes an immediate second run a pure skip, so re-running is
idempotent. -/
theorem dac_download_skip_idempotent :
    (∀ (env : DAC.Env) (fs : FS),
      fs.pathExists "best_mobile.onnx" = true →
      DAC.download_model env fs = (fs, [], some "best_mobile.onnx")) ∧
    (∀ (env : DAC.Env) (fs fs2 : FS) (ev : List Event) (p : FPath),
      DAC.download_model env fs = (fs2, ev, some p) →
      DAC.download_model env fs2 = (fs2, [], some "best_mobile.onnx")) := by
  have skip : ∀ (env : DAC.Env) (fs : FS),
      fs.pathExists "best_mobile.onnx" = true →
      DAC.download_model env fs = (fs, [], some "best_mobile.onnx") := by
    intro env fs h
    simp [DAC.download_model, h]
  refine ⟨skip, ?_⟩
  intro env fs fs2 ev p h
  by_cases he : fs.pathExists "best_mobile.onnx" = true
  · have := skip env fs he
    rw [this] at h
    obtain ⟨rfl, -, -⟩ := Prod.mk.injEq .. ▸ h
    exact skip env fs he
  · simp only [DAC.download_model, he, if_neg, Bool.not_eq_true] at h
    rcases hn : env.net DAC.hf_url with _ | b
    · rw [hn] at h; simp at h
    · rw [hn] at h
      simp only [Prod.mk.injEq] at h
      obtain ⟨hfs2, -, -⟩ := h
      exact skip env fs2 (hfs2 ▸ FS.pathExists_writeFile fs "best_mobile.onnx" b)

/-- Witness for `dac_download_skip_idempotent`: with `best_mobile.onnx`
already on disk, the acquisition step is a pure skip. -/
theorem dac_download_skip_idempotent_witness :
    DAC.download_model dacEnvOk fsOnnx = (fsOnnx, [], some "best_mobile.onnx") :=
  dac_download_skip_idempotent.1 dacEnvOk fsOnnx (by decide)

/-- C1 counterexample: no size validation exists.  A run of
`download_model.py` whose fetch yields a zero-byte file still stages
it: the zero-byte artifact is copied into the assets directory and the
process exits 0 — no `ValidationError`, and the copy is not restricted
to artifacts of size strictly greater than zero. -/
theorem dm_zero_byte_staged :
    (DM.mainEntry dmEnvZero fs0).2.2 = 0 ∧
    ((DM.mainEntry dmEnvZero fs0).1).getsize dest_file = some 0 := by
  decide

/-- C1 (amended): the pipeline performs no size check between
acquisition and staging: whatever bytes the fetch produced — including
the empty file — are copied to the fixed assets destination and the
run exits 0. -/
theorem dm_stages_regardless_of_size (env : DM.Env) (fs : FS) (b : Bytes)
    (hn : env.net DM.gh_url = some b) (hc : env.copyFail = false) :
    (DM.mainEntry env fs).2.2 = 0 ∧
    ((DM.mainEntry env fs).1).lookup dest_file = some b := by
  have hmf : ("chess_yolo.tflite" : FPath) ≠ dest_file := by decide
  simp only [DM.mainEntry, DM.download_tflite_model, hn]
  simp only [DM.copy_to_assets, hc, Bool.false_eq_true, if_false, if_neg hmf,
    FS.lookup_makedirs]
  rw [FS.lookup_writeFile_self]
  exact ⟨rfl, FS.lookup_writeFile_self ..⟩

/-- Witness for `dm_stages_regardless_of_size`: a two-byte fetched
artifact ends up byte-for-byte at the assets destination with exit 0. -/
theorem dm_stages_regardless_of_size_witness :
    (DM.mainEntry dmEnvTwo fs0).2.2 = 0 ∧
    ((DM.mainEntry dmEnvTwo fs0).1).lookup dest_file = some [2] :=
  dm_stages_regardless_of_size dmEnvTwo fs0 [2] rfl rfl

/-- C7 counterexample: `download_and_convert.py` has no upfront
dependency check.  With the conversion toolchain absent
(`dacEnvNoDeps.deps = false`), the run still performs the network
download (the acquisition step) and only then exits 1. -/
theorem dac_downloads_despite_missing_deps :
    dacEnvNoDeps.deps = false ∧
    (DAC.main dacEnvNoDeps fsMarker).2.1 = [Event.net DAC.hf_url] ∧
    (DAC.main dacEnvNoDeps fsMarker).2.2 = 1 := by
  decide

/-- C7 (amended): in `convert_model.py`, a missing toolchain dependency
stops the run before acquisition: the process exits 1 having performed
no loader call, no download and no write. -/
theorem cm_dependency_gate (env : CM.Env) (fs : FS)
    (h : CM.check_dependencies env = false) :
    CM.mainEntry env fs = (fs, [], 1) := by
  simp [CM.mainEntry, h]

/-- Witness for `cm_dependency_gate`: with the `onnx` package missing,
the run exits 1 untouched. -/
theorem cm_dependency_gate_witness :
    CM.mainEntry cmEnvNoDeps fs0 = (fs0, [], 1) :=
  cm_dependency_gate cmEnvNoDeps fs0 (by decide)

/-- C8: staging a source artifact creates the assets directory and its
parents, leaves the source's bytes unchanged whether or not the copy
fails, and — when the copy does not fail — reports success and places
a copy at the fixed destination name (overwriting anything there) whose
bytes, hence byte size, equal the source's exactly. -/
theorem dac_copy_to_assets_spec (env : DAC.Env) (fs : FS) (p : FPath) (b : Bytes)
    (hsrc : fs.lookup p = some b) (hne : p ≠ dest_file) :
    (∀ d ∈ assetsParents, d ∈ ((DAC.copy_to_assets env fs p).1).dirs) ∧
    ((DAC.copy_to_assets env fs p).1).lookup p = some b ∧
    (env.copyFail = false →
      (DAC.copy_to_assets env fs p).2 = true ∧
      ((DAC.copy_to_assets env fs p).1).lookup dest_file = some b ∧
      ((DAC.copy_to_assets env fs p).1).getsize dest_file = fs.getsize p) := by
  rcases hcf : env.copyFail with _ | _
  · simp only [DAC.copy_to_assets, hcf, Bool.false_eq_true, if_false, if_neg hne,
      FS.lookup_makedirs, hsrc]
    refine ⟨?_, ?_, ?_⟩
    · intro d hd
      simp [FS.makedirs, FS.writeFile, List.mem_append, hd]
    · rw [FS.lookup_writeFile_ne _ _ _ _ hne, FS.lookup_makedirs, hsrc]
    · intro _
      refine ⟨trivial, FS.lookup_writeFile_self .., ?_⟩
      simp only [FS.getsize, hsrc, FS.lookup_writeFile_self]
  · simp only [DAC.copy_to_assets, hcf, if_true, FS.lookup_makedirs]
    refine ⟨?_, hsrc, ?_⟩
    · intro d hd
      simp [FS.makedirs, List.mem_append, hd]
    · intro hcontra
      simp [hcf] at hcontra

/-- Witness for `dac_copy_to_assets_spec`: staging a concrete two-byte
artifact creates the assets directory and copies the bytes exactly. -/
theorem dac_copy_to_assets_spec_witness :
    assets_dir ∈ ((DAC.copy_to_assets dacEnvOk fsCopySrc "chess_yolo.tflite").1).dirs ∧
    ((DAC.copy_to_assets dacEnvOk fsCopySrc "chess_yolo.tflite").1).lookup dest_file
      = some [5, 6] ∧
    ((DAC.copy_to_assets dacEnvOk fsCopySrc "chess_yolo.tflite").1).getsize dest_file
      = fsCopySrc.getsize "chess_yolo.tflite" :=
  ⟨(dac_copy_to_assets_spec dacEnvOk fsCopySrc "chess_yolo.tflite" [5, 6]
      (by decide) (by decide)).1 assets_dir (by decide),
   ((dac_copy_to_assets_spec dacEnvOk fsCopySrc "chess_yolo.tflite" [5, 6]
      (by decide) (by decide)).2.2 rfl).2.1,
   ((dac_copy_to_assets_spec dacEnvOk fsCopySrc "chess_yolo.tflite" [5, 6]
      (by decide) (by decide)).2.2 rfl).2.2⟩

/-- C6 counterexample: the conversion in `download_and_convert.py` is
not full-precision.  Its converter is hardwired with
`tf.lite.Optimize.DEFAULT` — TensorFlow Lite's standard optimization,
which quantizes weights — so under an environment whose conversion
succeeds only when an optimization is configured on the converter, the
run still succeeds (exit 0): the quantization-enabling configuration
was applied. -/
theorem dac_quantization_configured :
    DAC.quantizationConfigured DAC.dac_converter_config = true ∧
    DAC.dac_converter_config.optimizations = [DAC.Optimize.DEFAULT] ∧
    (DAC.main dacEnvQuantObs fsMarker).2.2 = 0 := by
  decide

/-- C6 (amended): `convert_model.py` does use one fixed square
resolution and full-precision settings — every export stage it performs
passes `imgsz=640` and `int8=False` — but `download_and_convert.py`'s
converter is configured with `optimizations = [tf.lite.Optimize.DEFAULT]`,
a quantizing optimization, rather than a full-precision (empty)
optimization list. -/
theorem cm_export_options_fixed :
    DAC.dac_converter_config.optimizations = [DAC.Optimize.DEFAULT] ∧
    (∀ (env : CM.Env) (fs : FS) (fmt : String) (i : Nat) (q : Bool),
      Event.exportCall fmt i q ∈ (CM.download_and_convert_model env fs).2.1 →
      i = 640 ∧ q = false) := by
  refine ⟨rfl, ?_⟩
  intro env fs fmt i q hmem
  rcases hA : CM.acquireTrace env with ⟨tr, om⟩
  have htr : ∀ e ∈ tr, isLoadEvent e = true := by
    unfold CM.acquireTrace at hA
    rcases hP : env.loadYOLO CM.model_name with _ | m
    · rw [hP] at hA
      rcases hF : env.loadYOLO CM.fallback_name with _ | m <;> rw [hF] at hA <;>
        cases hA <;> decide
    · rw [hP] at hA
      cases hA
      decide
  simp only [CM.download_and_convert_model, hA] at hmem
  rcases om with _ | m
  · have := htr _ hmem
    simp [isLoadEvent] at this
  · rcases hO : env.exportModel m "onnx" 640 false with _ | ⟨op, ob⟩
    · simp only [hO] at hmem
      rcases List.mem_append.mp hmem with h | h
      · have := htr _ h
        simp [isLoadEvent] at this
      · simp only [List.mem_singleton, Event.exportCall.injEq] at h
        exact ⟨h.2.1, h.2.2⟩
    · simp only [hO] at hmem
      rcases hT : env.exportModel m "tflite" 640 false with _ | ⟨tp, tb⟩ <;>
        simp only [hT] at hmem <;>
        rcases List.mem_append.mp hmem with h | h
      · have := htr _ h
        simp [isLoadEvent] at this
      · simp only [List.mem_cons, List.mem_singleton, List.not_mem_nil,
          or_false, Event.exportCall.injEq] at h
        rcases h with h | h
        · exact ⟨h.2.1, h.2.2⟩
        · exact ⟨h.2.1, h.2.2⟩
      · have := htr _ h
        simp [isLoadEvent] at this
      · simp only [List.mem_cons, List.mem_singleton, List.not_mem_nil,
          or_false, Event.exportCall.injEq] at h
        rcases h with h | h
        · exact ⟨h.2.1, h.2.2⟩
        · exact ⟨h.2.1, h.2.2⟩

/-- Witness for `cm_export_options_fixed`: a concrete run's trace
contains the TFLite export stage, and the theorem yields its fixed
`imgsz=640`, `int8=False` options. -/
theorem cm_export_options_fixed_witness :
    Event.exportCall "tflite" 640 false
      ∈ (CM.download_and_convert_model cmEnvOk fs0).2.1 ∧
    (640 = 640 ∧ false = false) :=
  ⟨by decide,
   cm_export_options_fixed.2 cmEnvOk fs0 "tflite" 640 false (by decide)⟩

/-- C10: in `convert_model.py`, the TFLite export is invoked on the
acquired model object itself, not on the ONNX artifact: a run with the
ONNX export step removed reports the same outcome and leaves the same
bytes at every path other than the ONNX artifact's own path — in
particular the deployment-format artifact is identical. -/
theorem cm_tflite_independent_of_onnx (env : CM.Env) (fs : FS) (m : CM.Model)
    (op : FPath) (ob : Bytes)
    (hm : CM.acquiredModel env = some m)
    (ho : env.exportModel m "onnx" 640 false = some (op, ob)) :
    (CM.download_and_convert_model env fs).2.2
      = (CM.download_and_convert_model_noOnnx env fs).2.2 ∧
    ∀ q, q ≠ op →
      ((CM.download_and_convert_model env fs).1).lookup q
        = ((CM.download_and_convert_model_noOnnx env fs).1).lookup q := by
  rcases hA : CM.acquireTrace env with ⟨tr, om⟩
  have hom : om = some m := by
    have := hm
    unfold CM.acquiredModel at this
    rw [hA] at this
    exact this
  subst hom
  simp only [CM.download_and_convert_model, CM.download_and_convert_model_noOnnx,
    hA, ho]
  rcases hT : env.exportModel m "tflite" 640 false with _ | ⟨tp, tb⟩
  · refine ⟨rfl, ?_⟩
    intro q hq
    exact FS.lookup_writeFile_ne fs op q ob hq
  · refine ⟨rfl, ?_⟩
    intro q hq
    by_cases h1 : q = "labels.txt"
    · subst h1
      rw [FS.lookup_writeFile_self, FS.lookup_writeFile_self]
    · rw [FS.lookup_writeFile_ne _ _ _ _ h1, FS.lookup_writeFile_ne _ _ _ _ h1]
      by_cases h2 : q = tp
      · subst h2
        rw [FS.lookup_writeFile_self, FS.lookup_writeFile_self]
      · rw [FS.lookup_writeFile_ne _ _ _ _ h2, FS.lookup_writeFile_ne _ _ _ _ h2,
          FS.lookup_writeFile_ne _ _ _ _ hq]

/-- Witness for `cm_tflite_independent_of_onnx`: on a concrete
successful run, outcome and the staged TFLite bytes agree between the
full run and the run without the ONNX step. -/
theorem cm_tflite_independent_of_onnx_witness :
    (CM.download_and_convert_model cmEnvOk fs0).2.2
      = (CM.download_and_convert_model_noOnnx cmEnvOk fs0).2.2 ∧
    ((CM.download_and_convert_model cmEnvOk fs0).1).lookup
        "best_saved_model/best_float32.tflite"
      = ((CM.download_and_convert_model_noOnnx cmEnvOk fs0).1).lookup
        "best_saved_model/best_float32.tflite" :=
  ⟨(cm_tflite_independent_of_onnx cmEnvOk fs0 0 "best.onnx" [5] rfl rfl).1,
   (cm_tflite_independent_of_onnx cmEnvOk fs0 0 "best.onnx" [5] rfl rfl).2
     "best_saved_model/best_float32.tflite" (by decide)⟩

/-- C2 counterexample: a fully successful `download_and_convert.py` run
against a project tree with an empty deployment directory exits 0 but
leaves exactly ONE file in the deployment directory — the model file —
not two: no label file is ever staged there (none of the scripts write
a label file into the assets directory). -/
theorem dac_success_one_asset_file :
    (DAC.main dacEnvOk fsMarker).2.2 = 0 ∧
    ((DAC.main dacEnvOk fsMarker).1).namesUnder assets_dir = [dest_file] ∧
    (((DAC.main dacEnvOk fsMarker).1).namesUnder assets_dir).length ≠ 2 ∧
    ((DAC.main dacEnvOk fsMarker).1).lookup "app/src/main/assets/labels.txt"
      = none := by
  decide

/-- C2 (amended): a successful `download_and_convert.py` run against an
empty deployment directory exits 0 and leaves exactly one file there:
the deployment-format model file, holding exactly the converted
artifact's bytes.  The 12-line label file is not part of this
pipeline's staged output. -/
theorem dac_success_stages_model_only (env : DAC.Env) (fs : FS)
    (d om rep t : Bytes)
    (hmk : fs.pathExists gradle_marker = true)
    (hno : fs.pathExists "best_mobile.onnx" = false)
    (hnet : env.net DAC.hf_url = some d)
    (hdeps : env.deps = true)
    (hload : env.loadOnnx d = some om)
    (hprep : env.prepareTF om = some rep)
    (hconv : env.convertTFLite DAC.dac_converter_config
        (env.savedModelBytes rep) = some t)
    (hcopy : env.copyFail = false)
    (hempty : (fs.files.map Prod.fst).filter (isUnder assets_dir) = []) :
    (DAC.main env fs).2.2 = 0 ∧
    ((DAC.main env fs).1).namesUnder assets_dir = [dest_file] ∧
    ((DAC.main env fs).1).lookup dest_file = some t := by
  have hne : ("chess_yolo.tflite" : FPath) ≠ dest_file := by decide
  have h1 : DAC.download_model env fs
      = (fs.writeFile "best_mobile.onnx" d, [Event.net DAC.hf_url],
         some "best_mobile.onnx") := by
    simp [DAC.download_model, hno, hnet]
  have h2 : DAC.convert_to_tflite env (fs.writeFile "best_mobile.onnx" d)
        "best_mobile.onnx"
      = (((fs.writeFile "best_mobile.onnx" d).writeFile "yolo_savedmodel"
            (env.savedModelBytes rep)).writeFile "chess_yolo.tflite" t, [],
         some "chess_yolo.tflite") := by
    simp [DAC.convert_to_tflite, hdeps, FS.lookup_writeFile_self, hload, hprep,
      hconv]
  set fs2 := ((fs.writeFile "best_mobile.onnx" d).writeFile "yolo_savedmodel"
      (env.savedModelBytes rep)).writeFile "chess_yolo.tflite" t with hfs2
  have h3 : DAC.copy_to_assets env fs2 "chess_yolo.tflite"
      = ((fs2.makedirs assetsParents).writeFile dest_file t, true) := by
    simp only [DAC.copy_to_assets, hcopy, Bool.false_eq_true, if_false,
      if_neg hne, FS.lookup_makedirs, hfs2, FS.lookup_writeFile_self]
  have hm : DAC.main env fs
      = ((fs2.makedirs assetsParents).writeFile dest_file t,
         [Event.net DAC.hf_url], 0) := by
    simp only [DAC.main, hmk, Bool.not_true, Bool.false_eq_true, if_false, h1,
      h2, h3, List.append_nil]
  rw [hm]
  have hu1 : isUnder assets_dir dest_file = true := by decide
  have hu2 : isUnder assets_dir "chess_yolo.tflite" = false := by decide
  have hu3 : isUnder assets_dir "yolo_savedmodel" = false := by decide
  have hu4 : isUnder assets_dir "best_mobile.onnx" = false := by decide
  refine ⟨rfl, ?_, FS.lookup_writeFile_self ..⟩
  simp only [FS.namesUnder, FS.writeFile, FS.makedirs, hfs2, List.map_cons,
    List.filter_cons, hu1, hu2, hu3, hu4, if_true, if_false, hempty]
  simp [List.dedup_cons_of_not_mem]

/-- Witness for `dac_success_stages_model_only`: the concrete
successful run stages exactly the converted bytes as the single assets
file. -/
theorem dac_success_stages_model_only_witness :
    (DAC.main dacEnvOk fsMarker).2.2 = 0 ∧
    ((DAC.main dacEnvOk fsMarker).1).namesUnder assets_dir = [dest_file] ∧
    ((DAC.main dacEnvOk fsMarker).1).lookup dest_file = some [3, 1, 2] :=
  dac_success_stages_model_only dacEnvOk fsMarker [1, 2] [1, 2] [1, 2] [3, 1, 2]
    (by decide) (by decide) rfl rfl rfl rfl rfl rfl (by decide)
